import Mathlib

set_option maxHeartbeats 1000000

/-!
Verification of the care-connect appointment/triage core.

The development shallowly embeds, over `List Char` strings:
* the Gemini triage client `queryNLPService` together with its response
  formatters (`nlpService.js`, structured-result variant);
* the `Appointment` mongoose schema (urgency-gate validator, enum and
  range validation, field defaults);
* the appointment status state machine with its pre-save transition check;
* the `checkSymptoms` HTTP controller.

JavaScript strings are `List Char`, JSON numbers are `ℚ`, property access
returns `Option Json` (`none` = `undefined`), and JavaScript exceptions are
`Except JsErr`.
-/

abbrev Str := List Char

/-- The character `\x7b` (opening curly brace). -/
def lbrace : Char := Char.ofNat 123

/-- The character `\x7d` (closing curly brace). -/
def rbrace : Char := Char.ofNat 125

/-- Newline character used by `Array.prototype.join` in the formatters. -/
def nlChar : Char := Char.ofNat 10

/-- Substring test: the semantics of JavaScript `String.prototype.includes`. -/
def strIncludes (hay needle : Str) : Bool :=
  hay.tails.any (fun t => needle.isPrefixOf t)

/-- `Array.prototype.join(sep)` on a list of strings. -/
def joinSep : List Str → Str → Str
  | [], _ => []
  | [x], _ => x
  | x :: y :: xs, sep => x ++ sep ++ joinSep (y :: xs) sep

/-- JSON / JavaScript values as produced by `JSON.parse`. -/
inductive Json where
  | null : Json
  | bool (b : Bool) : Json
  | num (q : ℚ) : Json
  | str (s : Str) : Json
  | arr (elems : List Json) : Json
  | obj (fields : List (Str × Json)) : Json

/-- JavaScript falsiness of a value (`NaN` cannot arise from `JSON.parse`). -/
def jsFalsy : Json → Bool
  | Json.null => true
  | Json.bool b => !b
  | Json.num q => q = 0
  | Json.str s => s.isEmpty
  | Json.arr _ => false
  | Json.obj _ => false

def jsTruthy (j : Json) : Bool := !jsFalsy j

/-- Property access `o.k`.  On an object, `JSON.parse` keeps the last
duplicate key, hence the lookup from the rear.  On non-objects the
properties read by this code base are all `undefined` (`none`). -/
def getProp : Json → Str → Option Json
  | Json.obj fields, k => (fields.reverse.find? (fun f => f.1 == k)).map (fun f => f.2)
  | _, _ => none

/-- `a || b` where `a` may be `undefined`: returns `a` when truthy, else `b`
(`b` returned as-is even when falsy, as in JavaScript). -/
def jsOr (a : Option Json) (b : Json) : Json :=
  match a with
  | some v => if jsTruthy v then v else b
  | none => b

/-- Whitespace accepted by `JSON.parse` between tokens. -/
def isJsonWs (c : Char) : Bool :=
  c = ' ' || c = '\t' || c = nlChar || c = Char.ofNat 13

def skipWs : Str → Str
  | [] => []
  | c :: cs => if isJsonWs c then skipWs cs else c :: cs

def digitVal (c : Char) : Option Nat :=
  if '0' ≤ c ∧ c ≤ '9' then some (c.toNat - 48) else none

def hexVal (c : Char) : Option Nat :=
  if '0' ≤ c ∧ c ≤ '9' then some (c.toNat - 48)
  else if 'a' ≤ c ∧ c ≤ 'f' then some (c.toNat - 87)
  else if 'A' ≤ c ∧ c ≤ 'F' then some (c.toNat - 55)
  else none

/-- Longest leading run of decimal digits. -/
def spanDigits : Str → List Nat × Str
  | [] => ([], [])
  | c :: cs =>
    match digitVal c with
    | some d => let p := spanDigits cs; (d :: p.1, p.2)
    | none => ([], c :: cs)

def digitsToNat (ds : List Nat) : Nat := ds.foldl (fun a d => a * 10 + d) 0

/-- Exponent/fraction tail of a JSON number whose mantissa is `m`. -/
def parseNumExp (m : ℚ) : Str → Option (ℚ × Str)
  | c :: cs =>
    if c = 'e' ∨ c = 'E' then
      let p : Bool × Str :=
        match cs with
        | '+' :: r => (false, r)
        | '-' :: r => (true, r)
        | r => (false, r)
      let ds := spanDigits p.2
      if ds.1 = [] then none
      else
        let e := digitsToNat ds.1
        some ((if p.1 then m / (10 : ℚ) ^ e else m * (10 : ℚ) ^ e), ds.2)
    else some (m, c :: cs)
  | [] => some (m, [])

/-- Fraction tail (after the integer part `ip`) of a JSON number. -/
def parseNumFrac (ip : ℚ) : Str → Option (ℚ × Str)
  | '.' :: cs =>
    let ds := spanDigits cs
    if ds.1 = [] then none
    else parseNumExp (ip + (digitsToNat ds.1 : ℚ) / (10 : ℚ) ^ ds.1.length) ds.2
  | s => parseNumExp ip s

/-- A JSON number literal (grammar of RFC 8259, as enforced by `JSON.parse`:
the integer part is `0` or starts with a nonzero digit). -/
def parseNumber (s : Str) : Option (ℚ × Str) :=
  let p : Bool × Str :=
    match s with
    | '-' :: cs => (true, cs)
    | _ => (false, s)
  let body : Option (ℚ × Str) :=
    match p.2 with
    | '0' :: cs => parseNumFrac 0 cs
    | c :: cs =>
      match digitVal c with
      | some d =>
        if d = 0 then none
        else
          let ds := spanDigits cs
          parseNumFrac (digitsToNat (d :: ds.1) : ℚ) ds.2
      | none => none
    | [] => none
  body.map (fun q => ((if p.1 then -q.1 else q.1), q.2))

/-- Body of a JSON string literal (the opening quote already consumed),
with the escape sequences `JSON.parse` accepts; raw control characters
are rejected. -/
def parseStringBody : Nat → Str → Option (Str × Str)
  | 0, _ => none
  | _ + 1, [] => none
  | fuel + 1, c :: cs =>
    if c = '"' then some ([], cs)
    else if c = '\\' then
      match cs with
      | [] => none
      | e :: rest =>
        if e = '"' then (parseStringBody fuel rest).map (fun p => ('"' :: p.1, p.2))
        else if e = '\\' then (parseStringBody fuel rest).map (fun p => ('\\' :: p.1, p.2))
        else if e = '/' then (parseStringBody fuel rest).map (fun p => ('/' :: p.1, p.2))
        else if e = 'b' then (parseStringBody fuel rest).map (fun p => (Char.ofNat 8 :: p.1, p.2))
        else if e = 'f' then (parseStringBody fuel rest).map (fun p => (Char.ofNat 12 :: p.1, p.2))
        else if e = 'n' then (parseStringBody fuel rest).map (fun p => (nlChar :: p.1, p.2))
        else if e = 'r' then (parseStringBody fuel rest).map (fun p => (Char.ofNat 13 :: p.1, p.2))
        else if e = 't' then (parseStringBody fuel rest).map (fun p => ('\t' :: p.1, p.2))
        else if e = 'u' then
          match rest with
          | h1 :: h2 :: h3 :: h4 :: r2 =>
            match hexVal h1, hexVal h2, hexVal h3, hexVal h4 with
            | some a, some b, some c2, some d =>
              (parseStringBody fuel r2).map
                (fun p => (Char.ofNat (((a * 16 + b) * 16 + c2) * 16 + d) :: p.1, p.2))
            | _, _, _, _ => none
          | _ => none
        else none
    else if c.toNat < 32 then none
    else (parseStringBody fuel cs).map (fun p => (c :: p.1, p.2))

/-- `true` / `false` / `null` keyword tails. -/
def parseLit (lit : Str) (s : Str) : Option Str :=
  if lit.isPrefixOf s then some (s.drop lit.length) else none

/-- Object member list (after the opening brace, at least one member),
parameterised by the value parser `pv`. -/
def parseMembersF (pv : Str → Option (Json × Str)) : Nat → Str → Option (List (Str × Json) × Str)
  | 0, _ => none
  | fuel + 1, s =>
    match skipWs s with
    | [] => none
    | c :: cs =>
      if c = '"' then
        match parseStringBody (cs.length + 1) cs with
        | none => none
        | some (key, r1) =>
          match skipWs r1 with
          | ':' :: r2 =>
            match pv r2 with
            | none => none
            | some (v, r3) =>
              match skipWs r3 with
              | c2 :: r4 =>
                if c2 = ',' then
                  (parseMembersF pv fuel r4).map (fun p => ((key, v) :: p.1, p.2))
                else if c2 = rbrace then some ([(key, v)], r4)
                else none
              | [] => none
          | _ => none
      else none

/-- Array element list (after the opening bracket, at least one element). -/
def parseElemsF (pv : Str → Option (Json × Str)) : Nat → Str → Option (List Json × Str)
  | 0, _ => none
  | fuel + 1, s =>
    match pv s with
    | none => none
    | some (v, r1) =>
      match skipWs r1 with
      | c :: r2 =>
        if c = ',' then (parseElemsF pv fuel r2).map (fun p => (v :: p.1, p.2))
        else if c = ']' then some ([v], r2)
        else none
      | [] => none

/-- One level of JSON value parsing; `pv` parses strictly nested values. -/
def parseValueStep (pv : Str → Option (Json × Str)) (s : Str) : Option (Json × Str) :=
  match skipWs s with
  | [] => none
  | c :: cs =>
    if c = lbrace then
      match skipWs cs with
      | c2 :: r2 =>
        if c2 = rbrace then some (Json.obj [], r2)
        else
          (parseMembersF pv (cs.length + 1) cs).map (fun p => (Json.obj p.1, p.2))
      | [] => none
    else if c = '[' then
      match skipWs cs with
      | c2 :: r2 =>
        if c2 = ']' then some (Json.arr [], r2)
        else (parseElemsF pv (cs.length + 1) cs).map (fun p => (Json.arr p.1, p.2))
      | [] => none
    else if c = '"' then
      (parseStringBody (cs.length + 1) cs).map (fun p => (Json.str p.1, p.2))
    else if c = 't' then (parseLit "rue".data cs).map (fun r => (Json.bool true, r))
    else if c = 'f' then (parseLit "alse".data cs).map (fun r => (Json.bool false, r))
    else if c = 'n' then (parseLit "ull".data cs).map (fun r => (Json.null, r))
    else (parseNumber (c :: cs)).map (fun p => (Json.num p.1, p.2))

/-- Fuelled JSON value parser; nesting depth is bounded by the fuel. -/
def parseValueAux : Nat → Str → Option (Json × Str)
  | 0 => fun _ => none
  | fuel + 1 => parseValueStep (parseValueAux fuel)

/-- `JSON.parse`: a single JSON value with nothing but whitespace after it;
`none` models the thrown `SyntaxError`. -/
def parseJson (s : Str) : Option Json :=
  match parseValueAux (s.length + 1) s with
  | some (j, rest) => if (skipWs rest).isEmpty then some j else none
  | none => none

/-- `text.match(/\x7b[\s\S]*\x7d/)`: the greedy match runs from the first
opening brace to the last closing brace, and exists iff a closing brace
occurs after the first opening brace. -/
def extractSpan (text : Str) : Option Str :=
  match text.findIdx? (fun c => c = lbrace),
        text.reverse.findIdx? (fun c => c = rbrace) with
  | some i, some jr =>
    let j := text.length - 1 - jr
    if i < j then some ((text.drop i).take (j - i + 1)) else none
  | _, _ => none

/-- JavaScript exceptions that can arise in the triage client:
a `TypeError` (calling `.map` on a non-array), the `SyntaxError` thrown
by `JSON.parse`, and a failure of the `generateContent` service call
carrying an optional `error.message`. -/
inductive JsErr where
  | typeError : JsErr
  | parseError : JsErr
  | serviceError (message : Option Str) : JsErr

/-- `v.map(...)` demands an array; anything else throws a `TypeError`. -/
def asArray : Option Json → Except JsErr (List Json)
  | some (Json.arr xs) => Except.ok xs
  | _ => Except.error JsErr.typeError

/-- Digits after the decimal point of `r` (`0 ≤ r < 1`), up to the fuel. -/
def jsNumToStrFrac : Nat → ℚ → Str
  | 0, _ => []
  | fuel + 1, r =>
    if r = 0 then []
    else
      let d : ℤ := ⌊r * 10⌋
      Char.ofNat (48 + d.toNat) :: jsNumToStrFrac fuel (r * 10 - (d : ℚ))

/-- Decimal rendering of a nonnegative rational (template-literal
interpolation of a number). -/
def jsNumToStrNN (q : ℚ) : Str :=
  (toString (⌊q⌋).toNat).data ++
    (if q - ⌊q⌋ = 0 then [] else '.' :: jsNumToStrFrac 30 (q - ⌊q⌋))

def jsNumToStr (q : ℚ) : Str :=
  if q < 0 then '-' :: jsNumToStrNN (-q) else jsNumToStrNN q

mutual

/-- Template-literal interpolation `${v}` of a JavaScript value. -/
def jsDisplay : Json → Str
  | Json.null => "null".data
  | Json.bool true => "true".data
  | Json.bool false => "false".data
  | Json.num q => jsNumToStr q
  | Json.str s => s
  | Json.obj _ => "[object Object]".data
  | Json.arr xs => joinSep (jsDisplayElems xs) [',']

/-- `Array.prototype.toString` renders `null` elements as empty strings. -/
def jsDisplayElems : List Json → List Str
  | [] => []
  | Json.null :: xs => [] :: jsDisplayElems xs
  | x :: xs => jsDisplay x :: jsDisplayElems xs

end

/-- `Number(s)` on a (trimmed) string, restricted to the JSON numeral
grammar; `none` models `NaN`. -/
def strToNumber (s : Str) : Option ℚ :=
  let t := (skipWs ((skipWs s).reverse)).reverse
  if t.isEmpty then some 0
  else
    let body : Str := match t with
      | '+' :: r => r
      | r => r
    match parseNumber body with
    | some (q, rest) => if rest.isEmpty then some q else none
    | none => none

/-- `Number(v)` coercion used by the relational operators; `none` is `NaN`. -/
def jsToNumber : Option Json → Option ℚ
  | none => none
  | some Json.null => some 0
  | some (Json.bool b) => some (if b then 1 else 0)
  | some (Json.num q) => some q
  | some (Json.str s) => strToNumber s
  | some (Json.arr xs) => strToNumber (jsDisplay (Json.arr xs))
  | some (Json.obj _) => none

/-- `v <= n` with JavaScript numeric coercion (`NaN` compares false). -/
def jsLe (v : Option Json) (n : ℚ) : Bool :=
  match jsToNumber v with
  | some q => q ≤ n
  | none => false

/-- `v > n` with JavaScript numeric coercion (`NaN` compares false). -/
def jsGt (v : Option Json) (n : ℚ) : Bool :=
  match jsToNumber v with
  | some q => n < q
  | none => false

def getSeverityEmoji (score : Option Json) : Str :=
  if jsLe score 2 then "🟢".data
  else if jsLe score 4 then "🟡".data
  else if jsLe score 6 then "🟠".data
  else if jsLe score 8 then "🔴".data
  else "🆘".data

def getUrgencyIndicator (urgency : Option Json) : Str :=
  let key : Str := match urgency with
    | none => "undefined".data
    | some v => jsDisplay v
  if key = "Routine".data then "🔵".data
  else if key = "Same Day".data then "🟡".data
  else if key = "Urgent".data then "🟠".data
  else if key = "Emergency".data then "🔴".data
  else "🔵".data

/-- Interpolation `${data.k}` of a possibly absent property. -/
def dispProp (data : Json) (k : String) : Str :=
  match getProp data k.data with
  | none => "undefined".data
  | some v => jsDisplay v

/-- The 39-character box line of the reports. -/
def sepLine : Str := List.replicate 39 '═'

/-- The NEXT STEPS block inserted when `severity_score > 1`. -/
def nextStepsBlock : Str :=
  joinSep
    [sepLine,
     "🔵 NEXT STEPS".data,
     "   Book an appointment with a healthcare provider based on the urgency level.".data,
     "   Click the \x27Book Appointment\x27 button below to proceed.".data,
     sepLine] [nlChar]

/-- `formatSymptomAnalysis` from the structured-result NLP service:
builds the report from the parsed JSON; `.map` on the two array fields
throws when they are not arrays (the `filter(Boolean)` drops the empty
spacer lines). -/
def formatSymptomAnalysis (data : Json) : Except JsErr Str :=
  let severityEmoji := getSeverityEmoji (getProp data "severity_score".data)
  let urgencyColor := getUrgencyIndicator (getProp data "urgency".data)
  match asArray (getProp data "first_aid_tips".data),
        asArray (getProp data "warning_signs".data) with
  | Except.ok tips, Except.ok signs =>
    Except.ok (joinSep ((
      ["🏥 SYMPTOM ANALYSIS REPORT".data,
       sepLine,
       [],
       "📊 SEVERITY ASSESSMENT".data,
       "   ".data ++ severityEmoji ++ " Score: ".data ++ dispProp data "severity_score"
         ++ "/10".data,
       "   ".data ++ urgencyColor ++ " Urgency: ".data ++ dispProp data "urgency",
       [],
       "🔍 PRIMARY ASSESSMENT".data,
       "   ".data ++ dispProp data "primary_assessment",
       [],
       "🚑 FIRST AID TIPS".data] ++
      tips.map (fun tip => "   ✓ ".data ++ jsDisplay tip) ++
      [[],
       "⚠️ WARNING SIGNS TO WATCH".data] ++
      signs.map (fun sign => "   🚨 ".data ++ jsDisplay sign) ++
      [[],
       "👨‍⚕️ WHEN TO SEEK MEDICAL HELP".data,
       "   ".data ++ dispProp data "when_to_seek_help",
       [],
       "🏥 RECOMMENDED ACTION".data,
       "   ".data ++ dispProp data "recommended_action",
       [],
       (if jsGt (getProp data "severity_score".data) 1 then nextStepsBlock else []),
       [],
       sepLine,
       "⚖️ MEDICAL DISCLAIMER".data,
       "   ".data ++ dispProp data "disclaimer",
       sepLine]).filter (fun l => !l.isEmpty)) [nlChar])
  | Except.error e, _ => Except.error e
  | _, Except.error e => Except.error e

/-- `formatFallbackResponse`: report for a non-JSON service response,
echoing the query and the raw text. -/
def formatFallbackResponse (query rawText : Str) : Str :=
  joinSep
    ["🏥 SYMPTOM ANALYSIS REPORT".data,
     sepLine,
     [],
     "📝 SYMPTOMS ANALYZED: ".data ++ query,
     [],
     "📊 ASSESSMENT".data,
     "   ".data ++ rawText,
     [],
     sepLine,
     "⚖️ MEDICAL DISCLAIMER".data,
     "   This is AI-generated health information for educational purposes only.".data,
     "   Always consult healthcare professionals for medical advice, diagnosis, or treatment.".data,
     sepLine] [nlChar]

/-- `formatErrorResponse`: fully canned report used when the service call
fails, embedding the classified error message in its Note line. -/
def formatErrorResponse (query errorMessage : Str) : Str :=
  joinSep
    ["🏥 SYMPTOM ANALYSIS REPORT".data,
     sepLine,
     [],
     "📝 SYMPTOMS ANALYZED: ".data ++ query,
     [],
     "📊 SEVERITY ASSESSMENT".data,
     "   🟡 Score: 5/10 | Level: Moderate".data,
     "   🟡 Urgency: Same Day".data,
     [],
     "🔍 GENERAL ASSESSMENT".data,
     "   Based on your symptoms, this appears to be a health concern that requires attention and monitoring.".data,
     [],
     "⚡ IMMEDIATE ACTIONS".data,
     "   ✓ Monitor your symptoms closely".data,
     "   ✓ Rest and stay hydrated".data,
     "   ✓ Avoid strenuous activities".data,
     [],
     "🏠 SELF-CARE RECOMMENDATIONS".data,
     "   • Get adequate rest and sleep".data,
     "   • Stay well hydrated with water".data,
     "   • Maintain a comfortable environment".data,
     [],
     "⚠️ WARNING SIGNS TO WATCH".data,
     "   🚨 Symptoms getting worse rapidly".data,
     "   🚨 Severe pain or discomfort".data,
     "   🚨 Difficulty breathing or chest pain".data,
     [],
     "👨‍⚕️ WHEN TO SEEK MEDICAL HELP".data,
     "   If symptoms persist for more than 2-3 days, worsen, or if you develop any warning signs, consult a healthcare professional immediately.".data,
     [],
     sepLine,
     "⚖️ MEDICAL DISCLAIMER".data,
     "   This is general health information only. For accurate medical advice, please consult with a qualified healthcare provider.".data,
     [],
     "   Note: ".data ++ errorMessage
       ++ ". Please try again later or consult with a healthcare professional directly.".data,
     sepLine] [nlChar]

/-- The error-classification chain of the catch block:
`quota` before `404` before `401`, else the generic message; a missing
`error.message` short-circuits every check. -/
def classifyError (errMessage : Option Str) : Str :=
  match errMessage with
  | some m =>
    if strIncludes m "quota".data then
      "AI service quota exceeded. Please try again later".data
    else if strIncludes m "404".data then
      "AI model temporarily unavailable".data
    else if strIncludes m "401".data then
      "AI service authentication failed".data
    else "AI service temporarily unavailable".data
  | none => "AI service temporarily unavailable".data

/-- The `error.message` visible to the catch block. -/
def errMessageOf : JsErr → Option Str
  | JsErr.serviceError m => m
  | _ => none

/-- The normalized result of `queryNLPService`. -/
structure TriageResult where
  formattedMessage : Str
  severityScore : Json
  urgency : Json
  recommendedAction : Json

/-- Outcome of the one-shot `model.generateContent` call: the resolved
response text, or a rejection carrying an optional `error.message`. -/
inductive NLPOutcome where
  | success (text : Str) : NLPOutcome
  | failure (message : Option Str) : NLPOutcome

/-- `try { body } catch (e) { handler e }`. -/
def jsTryCatch {α : Type} (body : Except JsErr α) (handler : JsErr → Except JsErr α) :
    Except JsErr α :=
  match body with
  | Except.ok a => Except.ok a
  | Except.error e => handler e

/-- Result of the parse-failure fallback branch. -/
def fallbackResult (query text : Str) : TriageResult :=
  { formattedMessage := formatFallbackResponse query text,
    severityScore := Json.num 5,
    urgency := Json.str "Same Day".data,
    recommendedAction := Json.str "Book an appointment soon".data }

/-- Result of the service-failure catch block. -/
def errorResult (query : Str) (err : JsErr) : TriageResult :=
  { formattedMessage := formatErrorResponse query (classifyError (errMessageOf err)),
    severityScore := Json.num 5,
    urgency := Json.str "Same Day".data,
    recommendedAction := Json.str "Book an appointment soon to discuss your symptoms".data }

/-- Body of the inner `try` on a successful service response: extract the
brace span, `JSON.parse` it, format it; `JSON.parse` and the formatter may
throw. -/
def successResult (query text : Str) : Except JsErr TriageResult :=
  match extractSpan text with
  | some span =>
    match parseJson span with
    | none => Except.error JsErr.parseError
    | some jsonData =>
      match formatSymptomAnalysis jsonData with
      | Except.error e => Except.error e
      | Except.ok msg =>
        Except.ok
          { formattedMessage := msg,
            severityScore := jsOr (getProp jsonData "severity_score".data) (Json.num 0),
            urgency := jsOr (getProp jsonData "urgency".data) (Json.str "Routine".data),
            recommendedAction :=
              jsOr (getProp jsonData "recommended_action".data) (Json.str [])}
  | none => Except.ok (fallbackResult query text)

/-- `queryNLPService` (structured-result variant): outer `try` around the
service call, inner `try` around parsing/formatting falling back to
`formatFallbackResponse`, outer catch classifying the service error. -/
def queryNLPService (query : Str) (outcome : NLPOutcome) : Except JsErr TriageResult :=
  jsTryCatch
    (match outcome with
     | NLPOutcome.failure msg => Except.error (JsErr.serviceError msg)
     | NLPOutcome.success text =>
       jsTryCatch (successResult query text)
         (fun _e => Except.ok (fallbackResult query text)))
    (fun err => Except.ok (errorResult query err))

/-- The `urgencyLevel` enum of the `Appointment` mongoose schema. -/
def urgencyLevelEnum : List Str :=
  ["Routine".data, "Non-Urgent".data, "Urgent".data, "Emergency".data]

/-- The `status` enum of the `Appointment` mongoose schema. -/
def statusEnum : List Str :=
  ["pending".data, "confirmed".data, "cancelled".data, "completed".data]

/-- An `Appointment` document with the schema defaults already applied. -/
structure Appointment where
  doctorMedicalId : Str
  patientMedicalId : Str
  doctorName : Str
  patientName : Str
  date : Int
  time : Str
  symptoms : Str
  urgencyLevel : Str
  urgencyScore : ℚ
  fromSymptomChecker : Bool
  status : Str
  deriving DecidableEq

/-- Client-submitted creation payload; `none` on a defaultable path means
the field was not supplied. -/
structure AppointmentInput where
  doctorMedicalId : Str
  patientMedicalId : Str
  doctorName : Str
  patientName : Str
  date : Int
  time : Str
  symptoms : Str
  urgencyLevel : Option Str
  urgencyScore : Option ℚ
  fromSymptomChecker : Option Bool
  status : Option Str
  deriving DecidableEq

/-- Schema defaults: `urgencyLevel: 'Routine'`, `urgencyScore: 0`,
`fromSymptomChecker: false`, `status: 'confirmed'`. -/
def applyDefaults (i : AppointmentInput) : Appointment :=
  { doctorMedicalId := i.doctorMedicalId,
    patientMedicalId := i.patientMedicalId,
    doctorName := i.doctorName,
    patientName := i.patientName,
    date := i.date,
    time := i.time,
    symptoms := i.symptoms,
    urgencyLevel := i.urgencyLevel.getD "Routine".data,
    urgencyScore := i.urgencyScore.getD 0,
    fromSymptomChecker := i.fromSymptomChecker.getD false,
    status := i.status.getD "confirmed".data }

/-- Custom validator on `urgencyLevel`: non-`Routine` values demand
`fromSymptomChecker` on the post-write document. -/
def urgencyLevelValidator (fromSymptomChecker : Bool) (value : Str) : Bool :=
  if fromSymptomChecker = false ∧ value ≠ "Routine".data then false else true

/-- Full document validation run by mongoose on every save, in schema path
order; `some message` is a `ValidationError` with that message. -/
def validateAppointment (doc : Appointment) : Option Str :=
  if doc.doctorMedicalId = ([] : Str) then some "Path doctorMedicalId is required".data
  else if doc.patientMedicalId = ([] : Str) then some "Path patientMedicalId is required".data
  else if doc.doctorName = ([] : Str) then some "Path doctorName is required".data
  else if doc.patientName = ([] : Str) then some "Path patientName is required".data
  else if doc.time = ([] : Str) then some "Path time is required".data
  else if doc.symptoms = ([] : Str) then some "Path symptoms is required".data
  else if doc.urgencyLevel ∉ urgencyLevelEnum then
    some "is not a valid enum value for path urgencyLevel".data
  else if urgencyLevelValidator doc.fromSymptomChecker doc.urgencyLevel = false then
    some "Urgency level can only be set via Symptom Checker assessment".data
  else if doc.urgencyScore < 0 then some "urgencyScore is less than minimum allowed value".data
  else if 10 < doc.urgencyScore then some "urgencyScore is more than maximum allowed value".data
  else if doc.status ∉ statusEnum then
    some "is not a valid enum value for path status".data
  else none

/-- Document creation: apply defaults, validate, persist; a failed
validation yields a `ValidationError` and nothing is stored. -/
def createAppointment (i : AppointmentInput) : Except Str Appointment :=
  let doc := applyDefaults i
  match validateAppointment doc with
  | some msg => Except.error msg
  | none => Except.ok doc

/-- Saving proposed post-write field values over a stored document:
validation failure (a `ValidationError`) leaves the stored document
unchanged. -/
def saveUpdate (stored proposed : Appointment) : Appointment × Option Str :=
  match validateAppointment proposed with
  | some msg => (stored, some msg)
  | none => (proposed, none)

/-- `appointmentStateMachine`: allowed status transitions; statuses
missing from the table yield `undefined`. -/
def appointmentStateMachine (status : Str) : Option (List Str) :=
  if status = "pending".data then some ["approved".data, "rejected".data]
  else if status = "approved".data then some ["completed".data, "cancelled".data]
  else if status = "rejected".data then some ["pending".data]
  else if status = "completed".data then some []
  else none

/-- Errors the pre-save status hook can raise: the
`Error('Invalid status transition')` rejection, or the `TypeError` from
calling `.includes` on `undefined` when the previous status is not a key
of the state machine. -/
inductive TransitionError where
  | invalidStatusTransition : TransitionError
  | typeErrorUndefined : TransitionError
  deriving DecidableEq

/-- The pre-save hook: when the status path is modified, the transition
from the stored (previous) status to the proposed one must be listed in
the state machine. -/
def statusTransitionCheck (previousStatus newStatus : Str) (isModifiedStatus : Bool) :
    Option TransitionError :=
  if isModifiedStatus then
    match appointmentStateMachine previousStatus with
    | none => some TransitionError.typeErrorUndefined
    | some validTransitions =>
      if newStatus ∈ validTransitions then none
      else some TransitionError.invalidStatusTransition
  else none

/-- Attempt a status transition on a stored record: the hook failing
aborts the save and the record keeps its previous contents. -/
def applyStatusTransition (record : Appointment) (newStatus : Str) :
    Appointment × Option TransitionError :=
  match statusTransitionCheck record.status newStatus (record.status ≠ newStatus) with
  | some e => (record, some e)
  | none => ({ record with status := newStatus }, none)

/-- Body of a successful `checkSymptoms` HTTP response. -/
structure OkBody where
  message : Json
  severityScore : Json
  urgency : Json
  recommendedAction : Json

/-- The `checkSymptoms` controller response: a 200 with the coerced body,
or the 500 produced by the catch block. -/
inductive SymptomCheckResponse where
  | ok (body : OkBody) : SymptomCheckResponse
  | serverError (message : Str) : SymptomCheckResponse

def respStatus : SymptomCheckResponse → Nat
  | SymptomCheckResponse.ok _ => 200
  | SymptomCheckResponse.serverError _ => 500

/-- `checkSymptoms` on the value resolved by `queryNLPService`: coerce the
falsy/absent fields and respond 200; a `null` result makes the property
accesses throw, caught as a 500. -/
def checkSymptoms (result : Json) : SymptomCheckResponse :=
  match result with
  | Json.null =>
    SymptomCheckResponse.serverError
      "Cannot read properties of null".data
  | r =>
    SymptomCheckResponse.ok
      { message := jsOr (getProp r "formattedMessage".data)
          (jsOr (getProp r "message".data) r),
        severityScore := jsOr (getProp r "severityScore".data) (Json.num 0),
        urgency := jsOr (getProp r "urgency".data) (Json.str "Routine".data),
        recommendedAction := jsOr (getProp r "recommendedAction".data) (Json.str []) }

/-- A missing (`undefined`) or falsy value: the condition under which
`a || b` selects its right operand. -/
def falsyOrMissing (o : Option Json) : Prop :=
  ∀ v, o = some v → jsFalsy v = true

/-- A creation payload with every required path supplied and every
defaultable path left absent. -/
def baseInput : AppointmentInput :=
  { doctorMedicalId := "DOC001".data,
    patientMedicalId := "PAT001".data,
    doctorName := "Dr. Smith".data,
    patientName := "John Doe".data,
    date := 20240120,
    time := "10:00 AM".data,
    symptoms := "Headache and fever for 2 days".data,
    urgencyLevel := none,
    urgencyScore := none,
    fromSymptomChecker := none,
    status := none }

/-- Creation payload submitting a non-Routine urgency without the
symptom-checker provenance flag. -/
def inputUrgentNoChecker : AppointmentInput :=
  { baseInput with urgencyLevel := some "Urgent".data, urgencyScore := some 7 }

/-- Creation payload submitting `Routine` with a nonzero urgency score and
no provenance flag. -/
def inputRoutineScore7 : AppointmentInput :=
  { baseInput with urgencyLevel := some "Routine".data, urgencyScore := some 7 }

/-- Creation payload carrying the triage pipeline's own output:
provenance flag set, urgency `Same Day`. -/
def inputSameDayFromChecker : AppointmentInput :=
  { baseInput with fromSymptomChecker := some true,
                   urgencyLevel := some "Same Day".data, urgencyScore := some 5 }

/-- A stored record as created from the baseline payload. -/
def storedBase : Appointment := applyDefaults baseInput

/-- Proposed post-write values setting a non-Routine urgency while the
provenance flag stays false. -/
def proposedUrgent : Appointment := { storedBase with urgencyLevel := "Urgent".data }

/-- Proposed post-write values with the provenance flag concurrently set. -/
def proposedEmergencyChecker : Appointment :=
  { storedBase with urgencyLevel := "Emergency".data, urgencyScore := 9,
                    fromSymptomChecker := true, status := "pending".data }

/-- A stored record in the terminal `completed` state. -/
def storedCompleted : Appointment := { storedBase with status := "completed".data }

/-- A quota-style `error.message` as returned by the Gemini SDK. -/
def mQuota : Str :=
  "429 You exceeded your current quota, please check your plan and billing details".data

/-- Raw service text whose embedded JSON parses and matches the schema. -/
def text6 : Str :=
  "Here: \x7b\"severity_score\": 3, \"first_aid_tips\": [], \"warning_signs\": []\x7d done".data

/-- The brace span extracted from `text6`. -/
def span6 : Str :=
  "\x7b\"severity_score\": 3, \"first_aid_tips\": [], \"warning_signs\": []\x7d".data

/-- The parse of `span6`. -/
def json6 : Json :=
  Json.obj [("severity_score".data, Json.num 3), ("first_aid_tips".data, Json.arr []),
    ("warning_signs".data, Json.arr [])]

theorem isInfixAppL {x y : Str} (z : Str) (h : x <:+: y) : x <:+: z ++ y := by
  obtain ⟨s, t, rfl⟩ := h
  exact ⟨z ++ s, t, by simp⟩

theorem isInfixAppR {x y : Str} (z : Str) (h : x <:+: y) : x <:+: y ++ z := by
  obtain ⟨s, t, rfl⟩ := h
  exact ⟨s, t ++ z, by simp⟩

/-- Every element of a joined list is a substring of the join. -/
theorem memInfixJoinSep {x : Str} {xs : List Str} (sep : Str) (hx : x ∈ xs) :
    x <:+: joinSep xs sep := by
  induction xs with
  | nil => cases hx
  | cons a as ih =>
    cases as with
    | nil =>
      cases hx with
      | head => exact List.infix_refl _
      | tail _ h => cases h
    | cons b bs =>
      cases hx with
      | head => exact isInfixAppR _ (isInfixAppR _ (List.infix_refl _))
      | tail _ h =>
        show x <:+: a ++ sep ++ joinSep (b :: bs) sep
        rw [List.append_assoc]
        exact isInfixAppL _ (isInfixAppL _ (ih h))

/-- The fallback report echoes the query. -/
theorem queryInFallbackReport (query text : Str) :
    query <:+: formatFallbackResponse query text := by
  have h1 : query <:+: "📝 SYMPTOMS ANALYZED: ".data ++ query :=
    ⟨"📝 SYMPTOMS ANALYZED: ".data, [], by simp⟩
  exact List.IsInfix.trans h1 (memInfixJoinSep _ (by simp [formatFallbackResponse]))

/-- The fallback report echoes the raw service text. -/
theorem rawTextInFallbackReport (query text : Str) :
    text <:+: formatFallbackResponse query text := by
  have h1 : text <:+: "   ".data ++ text := ⟨"   ".data, [], by simp⟩
  exact List.IsInfix.trans h1 (memInfixJoinSep _ (by simp [formatFallbackResponse]))

/-- The canned error report embeds the classified message in its Note line. -/
theorem messageInErrorReport (query em : Str) : em <:+: formatErrorResponse query em := by
  have h1 : em <:+: "   Note: ".data ++ em
      ++ ". Please try again later or consult with a healthcare professional directly.".data :=
    ⟨"   Note: ".data,
     ". Please try again later or consult with a healthcare professional directly.".data,
     by simp⟩
  exact List.IsInfix.trans h1 (memInfixJoinSep _ (by simp [formatErrorResponse]))

/-- A document that validates keeps the urgency gate satisfied. -/
theorem validateNonePassesGate {doc : Appointment} (h : validateAppointment doc = none) :
    urgencyLevelValidator doc.fromSymptomChecker doc.urgencyLevel = true := by
  unfold validateAppointment at h
  split_ifs at h <;> simp_all

/-- A document that validates has an enum urgency level. -/
theorem validateNoneLevelInEnum {doc : Appointment} (h : validateAppointment doc = none) :
    doc.urgencyLevel ∈ urgencyLevelEnum := by
  unfold validateAppointment at h
  split_ifs at h with h1 h2 h3 h4 h5 h6 h7 <;> simp_all

theorem jsOrOfFalsy {a : Option Json} {b : Json} (h : falsyOrMissing a) : jsOr a b = b := by
  cases a with
  | none => rfl
  | some v =>
    have := h v rfl
    simp [jsOr, jsTruthy, this]

theorem jsOrOfTruthy {a : Option Json} {b v : Json} (ha : a = some v)
    (hv : jsTruthy v = true) : jsOr a b = v := by
  subst ha
  simp [jsOr, hv]

/-- On any non-`null` result the controller answers 200 with the four
coerced fields. -/
theorem checkSymptomsEq (result : Json) (h : result ≠ Json.null) :
    checkSymptoms result = SymptomCheckResponse.ok
      { message := jsOr (getProp result "formattedMessage".data)
          (jsOr (getProp result "message".data) result),
        severityScore := jsOr (getProp result "severityScore".data) (Json.num 0),
        urgency := jsOr (getProp result "urgency".data) (Json.str "Routine".data),
        recommendedAction := jsOr (getProp result "recommendedAction".data) (Json.str []) } := by
  cases result <;> first | exact absurd rfl h | rfl

/-- C1: a write (create or update) whose proposed post-write urgencyLevel is
not Routine while fromSymptomChecker is false is rejected with a
ValidationError and the stored record is unchanged; when fromSymptomChecker
is true every urgency level of the enum passes the gate, and an
otherwise-valid write is accepted. -/
theorem urgencyGate_write_enforcement :
    (∀ stored proposed : Appointment,
        proposed.fromSymptomChecker = false →
        proposed.urgencyLevel ≠ "Routine".data →
        (saveUpdate stored proposed).1 = stored ∧ (saveUpdate stored proposed).2.isSome) ∧
    (∀ level ∈ urgencyLevelEnum, urgencyLevelValidator true level = true) ∧
    (∀ stored proposed : Appointment,
        proposed.fromSymptomChecker = true →
        proposed.urgencyLevel ∈ urgencyLevelEnum →
        proposed.doctorMedicalId ≠ [] → proposed.patientMedicalId ≠ [] →
        proposed.doctorName ≠ [] → proposed.patientName ≠ [] →
        proposed.time ≠ [] → proposed.symptoms ≠ [] →
        0 ≤ proposed.urgencyScore → proposed.urgencyScore ≤ 10 →
        proposed.status ∈ statusEnum →
        saveUpdate stored proposed = (proposed, none)) := by
  refine ⟨?_, ?_, ?_⟩
  · intro stored proposed hf hl
    have hgate : urgencyLevelValidator proposed.fromSymptomChecker proposed.urgencyLevel
        = false := by
      simp [urgencyLevelValidator, hf, hl]
    have hval : validateAppointment proposed ≠ none := fun h => by
      have := validateNonePassesGate h
      rw [hgate] at this
      cases this
    cases h : validateAppointment proposed with
    | none => exact absurd h hval
    | some msg => exact ⟨by simp [saveUpdate, h], by simp [saveUpdate, h]⟩
  · intro level _
    simp [urgencyLevelValidator]
  · intro stored proposed hf hl h1 h2 h3 h4 h5 h6 h7 h8 h9
    have hv : validateAppointment proposed = none := by
      unfold validateAppointment
      split_ifs <;> first | rfl | (exfalso; linarith) | simp_all [urgencyLevelValidator]
    simp [saveUpdate, hv]

/-- C1 witness: concrete rejected and accepted writes. -/
theorem urgencyGate_write_enforcement_witness :
    ((saveUpdate storedBase proposedUrgent).1 = storedBase ∧
      (saveUpdate storedBase proposedUrgent).2.isSome) ∧
    urgencyLevelValidator true "Emergency".data = true ∧
    saveUpdate storedBase proposedEmergencyChecker = (proposedEmergencyChecker, none) :=
  ⟨urgencyGate_write_enforcement.1 storedBase proposedUrgent (by rfl) (by decide),
   urgencyGate_write_enforcement.2.1 "Emergency".data (by decide),
   urgencyGate_write_enforcement.2.2 storedBase proposedEmergencyChecker (by rfl) (by decide)
     (by decide) (by decide) (by decide) (by decide) (by decide) (by decide) (by decide)
     (by decide) (by decide)⟩

/-- C2 counterexample: with fromSymptomChecker false, a non-Routine
submission is rejected with the gate ValidationError (not silently coerced
to Routine), and a Routine submission with urgencyScore 7 does create a
record — whose stored score is 7, not 0. -/
theorem creation_urgency_not_coerced_counterexample :
    createAppointment inputUrgentNoChecker =
      Except.error "Urgency level can only be set via Symptom Checker assessment".data ∧
    createAppointment inputRoutineScore7 = Except.ok (applyDefaults inputRoutineScore7) ∧
    (applyDefaults inputRoutineScore7).fromSymptomChecker = false ∧
    (applyDefaults inputRoutineScore7).urgencyLevel = "Routine".data ∧
    (applyDefaults inputRoutineScore7).urgencyScore = 7 ∧
    (7 : ℚ) ≠ 0 :=
  ⟨rfl, rfl, rfl, rfl, rfl, by decide⟩

/-- C2 (amended): for a creation whose fromSymptomChecker is false, a
non-Routine submitted urgencyLevel makes the creation fail with a
ValidationError, and any successfully created record stores urgencyLevel
Routine together with the submitted urgencyScore (0 only when the score
was not supplied). -/
theorem creation_urgency_rejected_not_coerced (i : AppointmentInput)
    (hf : i.fromSymptomChecker.getD false = false) :
    (i.urgencyLevel.getD "Routine".data ≠ "Routine".data →
      ∃ m, createAppointment i = Except.error m) ∧
    (∀ doc, createAppointment i = Except.ok doc →
      doc.urgencyLevel = "Routine".data ∧ doc.urgencyScore = i.urgencyScore.getD 0) := by
  constructor
  · intro hl
    have hgate : urgencyLevelValidator (applyDefaults i).fromSymptomChecker
        (applyDefaults i).urgencyLevel = false := by
      simp [urgencyLevelValidator, applyDefaults, hf, hl]
    cases h : validateAppointment (applyDefaults i) with
    | none =>
      have := validateNonePassesGate h
      rw [hgate] at this
      cases this
    | some msg => exact ⟨msg, by simp [createAppointment, h]⟩
  · intro doc hdoc
    have hok : validateAppointment (applyDefaults i) = none ∧ doc = applyDefaults i := by
      have hred : createAppointment i =
          (match validateAppointment (applyDefaults i) with
           | some msg => Except.error msg
           | none => Except.ok (applyDefaults i)) := rfl
      rw [hred] at hdoc
      cases h : validateAppointment (applyDefaults i) with
      | some m => rw [h] at hdoc; cases hdoc
      | none => rw [h] at hdoc; cases hdoc; exact ⟨rfl, rfl⟩
    obtain ⟨hnone, rfl⟩ := hok
    have hgate := validateNonePassesGate hnone
    have hfsc : (applyDefaults i).fromSymptomChecker = false := by
      simp [applyDefaults, hf]
    rw [hfsc] at hgate
    constructor
    · by_contra hne
      simp [urgencyLevelValidator, hne] at hgate
    · simp [applyDefaults]

/-- C2 witness: concrete instances of both amended branches. -/
theorem creation_urgency_rejected_not_coerced_witness :
    (∃ m, createAppointment inputUrgentNoChecker = Except.error m) ∧
    ((applyDefaults inputRoutineScore7).urgencyLevel = "Routine".data ∧
      (applyDefaults inputRoutineScore7).urgencyScore = inputRoutineScore7.urgencyScore.getD 0) :=
  ⟨(creation_urgency_rejected_not_coerced inputUrgentNoChecker rfl).1 (by decide),
   (creation_urgency_rejected_not_coerced inputRoutineScore7 rfl).2 _ rfl⟩

/-- C3: from the terminal status completed, every attempted transition —
in particular completed to approved — fails with the invalid-status-
transition error and the record keeps all its contents, so the status
remains completed. -/
theorem completed_transitions_always_rejected (record : Appointment) (target : Str)
    (hc : record.status = "completed".data) (ht : target ≠ "completed".data) :
    applyStatusTransition record target =
      (record, some TransitionError.invalidStatusTransition) ∧
    (applyStatusTransition record target).1.status = "completed".data := by
  have hmod : record.status ≠ target := by rw [hc]; exact fun hh => ht hh.symm
  have hne : ¬ ("completed".data = target) := fun hh => ht hh.symm
  have hmain : applyStatusTransition record target =
      (record, some TransitionError.invalidStatusTransition) := by
    unfold applyStatusTransition statusTransitionCheck
    rw [hc]
    simp only [appointmentStateMachine, hmod, hne]
    simp [hne, appointmentStateMachine]
  exact ⟨hmain, by rw [hmain]; exact hc⟩

/-- C3 witness: completed to approved on a concrete record. -/
theorem completed_transitions_always_rejected_witness :
    applyStatusTransition storedCompleted "approved".data =
      (storedCompleted, some TransitionError.invalidStatusTransition) ∧
    (applyStatusTransition storedCompleted "approved".data).1.status = "completed".data :=
  completed_transitions_always_rejected storedCompleted "approved".data (by rfl) (by decide)

/-- C4 (code bug): a creation that does not supply a status is stored with
the schema default confirmed, not pending as the documented workflow
requires. -/
theorem default_status_confirmed_not_pending :
    (createAppointment baseInput).map (fun d => d.status) = Except.ok "confirmed".data ∧
    "confirmed".data ≠ "pending".data :=
  ⟨rfl, by decide⟩

/-- C5: when the service text has no brace span, or the extracted span does
not parse as JSON, the result is exactly severity 5, urgency Same Day,
recommendedAction Book an appointment soon, with a report echoing the query
and the raw text. -/
theorem parser_fallback_on_invalid_json (query text : Str)
    (h : extractSpan text = none ∨
      ∃ span, extractSpan text = some span ∧ parseJson span = none) :
    queryNLPService query (NLPOutcome.success text) = Except.ok
      { formattedMessage := formatFallbackResponse query text,
        severityScore := Json.num 5,
        urgency := Json.str "Same Day".data,
        recommendedAction := Json.str "Book an appointment soon".data } ∧
    query <:+: formatFallbackResponse query text ∧
    text <:+: formatFallbackResponse query text := by
  refine ⟨?_, queryInFallbackReport query text, rawTextInFallbackReport query text⟩
  rcases h with h | ⟨span, h1, h2⟩
  · simp [queryNLPService, jsTryCatch, successResult, h, fallbackResult]
  · simp [queryNLPService, jsTryCatch, successResult, h1, h2, fallbackResult]

/-- C5 witness: a plain-prose service response. -/
theorem parser_fallback_on_invalid_json_witness :
    (queryNLPService "headache".data (NLPOutcome.success "The model returned plain prose".data)
      = Except.ok
      { formattedMessage :=
          formatFallbackResponse "headache".data "The model returned plain prose".data,
        severityScore := Json.num 5,
        urgency := Json.str "Same Day".data,
        recommendedAction := Json.str "Book an appointment soon".data }) ∧
    "headache".data <:+:
      formatFallbackResponse "headache".data "The model returned plain prose".data ∧
    "The model returned plain prose".data <:+:
      formatFallbackResponse "headache".data "The model returned plain prose".data :=
  parser_fallback_on_invalid_json _ _ (Or.inl (by decide))

/-- C6: when the extracted span parses as a JSON object matching the schema
(its two array-valued report fields present), parsing succeeds into the
structured result whose severityScore is exactly the JSON's numeric
severity_score value, with absent fields defaulted: severity_score to 0,
urgency to Routine, recommended_action to the empty string, and the report
built from the object's fields. -/
theorem parser_success_maps_severity_and_defaults (query text span : Str) (j : Json)
    (tips signs : List Json)
    (hspan : extractSpan text = some span)
    (hparse : parseJson span = some j)
    (htips : getProp j "first_aid_tips".data = some (Json.arr tips))
    (hsigns : getProp j "warning_signs".data = some (Json.arr signs)) :
    ∃ msg, formatSymptomAnalysis j = Except.ok msg ∧
      queryNLPService query (NLPOutcome.success text) = Except.ok
        { formattedMessage := msg,
          severityScore := jsOr (getProp j "severity_score".data) (Json.num 0),
          urgency := jsOr (getProp j "urgency".data) (Json.str "Routine".data),
          recommendedAction := jsOr (getProp j "recommended_action".data) (Json.str []) } ∧
      (∀ q : ℚ, getProp j "severity_score".data = some (Json.num q) →
        jsOr (getProp j "severity_score".data) (Json.num 0) = Json.num q) ∧
      (getProp j "severity_score".data = none →
        jsOr (getProp j "severity_score".data) (Json.num 0) = Json.num 0) ∧
      (getProp j "urgency".data = none →
        jsOr (getProp j "urgency".data) (Json.str "Routine".data) = Json.str "Routine".data) ∧
      (getProp j "recommended_action".data = none →
        jsOr (getProp j "recommended_action".data) (Json.str []) = Json.str []) := by
  have hfmt : ∃ msg, formatSymptomAnalysis j = Except.ok msg := by
    unfold formatSymptomAnalysis
    rw [htips, hsigns]
    exact ⟨_, rfl⟩
  obtain ⟨msg, hmsg⟩ := hfmt
  refine ⟨msg, hmsg, ?_, ?_, ?_, ?_, ?_⟩
  · simp [queryNLPService, jsTryCatch, successResult, hspan, hparse, hmsg]
  · intro q hq
    rw [hq]
    by_cases h0 : q = 0 <;> simp [jsOr, jsTruthy, jsFalsy, h0]
  · intro h
    rw [h]
    rfl
  · intro h
    rw [h]
    rfl
  · intro h
    rw [h]
    rfl

/-- C6 witness: a concrete schema-matching response with severity 3 flows
through to severityScore 3 and the defaulted urgency/action. -/
theorem parser_success_maps_severity_and_defaults_witness :
    ∃ msg, formatSymptomAnalysis json6 = Except.ok msg ∧
      queryNLPService "sore throat".data (NLPOutcome.success text6) = Except.ok
        { formattedMessage := msg,
          severityScore := Json.num 3,
          urgency := Json.str "Routine".data,
          recommendedAction := Json.str [] } := by
  obtain ⟨msg, h1, h2, _⟩ :=
    parser_success_maps_severity_and_defaults "sore throat".data text6 span6 json6 [] []
      (by decide) (by rfl) (by rfl) (by rfl)
  exact ⟨msg, h1, h2⟩

/-- C7: for every query and every service outcome (success with arbitrary
text, parse failure, or service error) the triage client returns a
well-formed result; no exception escapes it. -/
theorem queryNLPService_never_raises (query : Str) (outcome : NLPOutcome) :
    ∃ r, queryNLPService query outcome = Except.ok r := by
  cases outcome with
  | failure msg => exact ⟨_, rfl⟩
  | success text =>
    cases hs : successResult query text with
    | ok r => exact ⟨r, by simp [queryNLPService, jsTryCatch, hs]⟩
    | error e => exact ⟨fallbackResult query text, by simp [queryNLPService, jsTryCatch, hs]⟩

/-- C8 counterexample: on a quota failure the returned recommendedAction is
the longer error-path string, not the claimed Book an appointment soon. -/
theorem error_path_recommendedAction_counterexample :
    (queryNLPService "mild headache since this morning".data
        (NLPOutcome.failure (some mQuota))).map (fun r => r.recommendedAction) =
      Except.ok (Json.str "Book an appointment soon to discuss your symptoms".data) ∧
    (queryNLPService "mild headache since this morning".data
        (NLPOutcome.failure (some mQuota))).map (fun r => r.recommendedAction) ≠
      Except.ok (Json.str "Book an appointment soon".data) := by
  constructor
  · rfl
  · intro h
    rw [show (queryNLPService "mild headache since this morning".data
          (NLPOutcome.failure (some mQuota))).map (fun r => r.recommendedAction) =
        Except.ok (Json.str "Book an appointment soon to discuss your symptoms".data)
        from rfl] at h
    injection h with h1
    injection h1 with h2
    exact absurd h2 (by decide)

/-- C8 (amended): every service failure is classified in priority order —
quota, then 404 (model not found), then 401 (authentication), else the
generic message — and the result always carries severityScore 5, urgency
Same Day and recommendedAction Book an appointment soon to discuss your
symptoms, with the classified message embedded in the canned report. -/
theorem error_classification_and_fallback_values (query : Str) (msg : Option Str) :
    queryNLPService query (NLPOutcome.failure msg) = Except.ok
      { formattedMessage := formatErrorResponse query (classifyError msg),
        severityScore := Json.num 5,
        urgency := Json.str "Same Day".data,
        recommendedAction :=
          Json.str "Book an appointment soon to discuss your symptoms".data } ∧
    classifyError msg <:+: formatErrorResponse query (classifyError msg) ∧
    (∀ m, msg = some m →
      (strIncludes m "quota".data = true →
        classifyError msg = "AI service quota exceeded. Please try again later".data) ∧
      (strIncludes m "quota".data = false → strIncludes m "404".data = true →
        classifyError msg = "AI model temporarily unavailable".data) ∧
      (strIncludes m "quota".data = false → strIncludes m "404".data = false →
        strIncludes m "401".data = true →
        classifyError msg = "AI service authentication failed".data) ∧
      (strIncludes m "quota".data = false → strIncludes m "404".data = false →
        strIncludes m "401".data = false →
        classifyError msg = "AI service temporarily unavailable".data)) ∧
    (msg = none → classifyError msg = "AI service temporarily unavailable".data) := by
  refine ⟨rfl, messageInErrorReport query (classifyError msg), ?_, ?_⟩
  · rintro m rfl
    refine ⟨fun hq => by simp [classifyError, hq],
            fun hq h4 => by simp [classifyError, hq, h4],
            fun hq h4 h1 => by simp [classifyError, hq, h4, h1],
            fun hq h4 h1 => by simp [classifyError, hq, h4, h1]⟩
  · rintro rfl
    rfl

/-- C8 witness: the quota classification on a concrete failure. -/
theorem error_classification_and_fallback_values_witness :
    queryNLPService "mild headache since this morning".data
        (NLPOutcome.failure (some mQuota)) = Except.ok
      { formattedMessage := formatErrorResponse "mild headache since this morning".data
          (classifyError (some mQuota)),
        severityScore := Json.num 5,
        urgency := Json.str "Same Day".data,
        recommendedAction :=
          Json.str "Book an appointment soon to discuss your symptoms".data } ∧
    classifyError (some mQuota) = "AI service quota exceeded. Please try again later".data ∧
    classifyError (some mQuota) <:+:
      formatErrorResponse "mild headache since this morning".data
        (classifyError (some mQuota)) := by
  have h := error_classification_and_fallback_values
    "mild headache since this morning".data (some mQuota)
  exact ⟨h.1, (h.2.2.1 mQuota rfl).1 (by decide), h.2.1⟩

/-- C9 (code bug): the triage pipeline itself produces the urgency value
Same Day (here on its quota-failure path), but Same Day is not a member of
the schema urgency enum, so the booking create carrying it with
fromSymptomChecker true is rejected with a ValidationError instead of
storing Same Day. -/
theorem sameDay_urgency_unstorable :
    (queryNLPService "mild headache since this morning".data
        (NLPOutcome.failure (some mQuota))).map (fun r => r.urgency) =
      Except.ok (Json.str "Same Day".data) ∧
    "Same Day".data ∉ urgencyLevelEnum ∧
    createAppointment inputSameDayFromChecker =
      Except.error "is not a valid enum value for path urgencyLevel".data :=
  ⟨rfl, by decide, rfl⟩

/-- C10: on every non-null service result the handler responds 200, coercing
a missing or falsy severityScore to 0, urgency to Routine, recommendedAction
to the empty string, with the message falling back through formattedMessage,
then message, then the raw result; in particular a plain-string result
yields a 200 with severityScore 0 and urgency Routine. -/
theorem checkSymptoms_coerces_falsy_fields (result : Json) (hnn : result ≠ Json.null) :
    ∃ body, checkSymptoms result = SymptomCheckResponse.ok body ∧
      respStatus (checkSymptoms result) = 200 ∧
      (falsyOrMissing (getProp result "severityScore".data) →
        body.severityScore = Json.num 0) ∧
      (falsyOrMissing (getProp result "urgency".data) →
        body.urgency = Json.str "Routine".data) ∧
      (falsyOrMissing (getProp result "recommendedAction".data) →
        body.recommendedAction = Json.str []) ∧
      (∀ v, getProp result "formattedMessage".data = some v → jsTruthy v = true →
        body.message = v) ∧
      (falsyOrMissing (getProp result "formattedMessage".data) →
        ∀ w, getProp result "message".data = some w → jsTruthy w = true →
          body.message = w) ∧
      (falsyOrMissing (getProp result "formattedMessage".data) →
        falsyOrMissing (getProp result "message".data) → body.message = result) ∧
      (∀ s, result = Json.str s →
        checkSymptoms result = SymptomCheckResponse.ok
          { message := Json.str s, severityScore := Json.num 0,
            urgency := Json.str "Routine".data, recommendedAction := Json.str [] }) := by
  refine ⟨_, checkSymptomsEq result hnn, ?_, ?_, ?_, ?_, ?_, ?_, ?_, ?_⟩
  · rw [checkSymptomsEq result hnn]
    rfl
  · intro h
    exact jsOrOfFalsy h
  · intro h
    exact jsOrOfFalsy h
  · intro h
    exact jsOrOfFalsy h
  · intro v hv htr
    exact jsOrOfTruthy hv htr
  · intro h w hw htr
    show jsOr (getProp result "formattedMessage".data)
      (jsOr (getProp result "message".data) result) = w
    rw [jsOrOfFalsy h]
    exact jsOrOfTruthy hw htr
  · intro h1 h2
    show jsOr (getProp result "formattedMessage".data)
      (jsOr (getProp result "message".data) result) = result
    rw [jsOrOfFalsy h1, jsOrOfFalsy h2]
  · intro s hs
    subst hs
    rfl

/-- C10 witness: a plain-string service result. -/
theorem checkSymptoms_coerces_falsy_fields_witness :
    checkSymptoms (Json.str "AI service says hello".data) = SymptomCheckResponse.ok
      { message := Json.str "AI service says hello".data, severityScore := Json.num 0,
        urgency := Json.str "Routine".data, recommendedAction := Json.str [] } := by
  obtain ⟨body, _, _, _, _, _, _, _, _, hstr⟩ :=
    checkSymptoms_coerces_falsy_fields (Json.str "AI service says hello".data)
      (fun h => Json.noConfusion h)
  exact hstr _ rfl
